import Mathlib

/-!
Shallow embedding of the Eco-Trekker carbon-footprint service
(src/main.py).  The core is the `/calculate` request handler: it reads
three form fields (`start`, `end`, `mode`), rejects the request when any
of them is absent or empty, and otherwise returns a success object with
a placeholder distance of 100 km and a carbon footprint of
`distance * EMISSION_FACTORS.get(mode, 0.0)`.

Numeric values are modelled over ℚ: the factors 0.120, 0.068, 0.045,
0.0, 0.0 are embedded exactly, and the single product `100 * factor`
performed by the program is exact in IEEE double precision for every
table entry (each product rounds to the mathematically exact value), so
the rational semantics agrees with the program's floating-point
semantics on every value the claims mention.
-/

namespace EcoTrekker

/-- The emission-factor table of src/main.py lines 18–24, as an
association list from transport-mode string to the emission rate in
kg CO2 per km. -/
def EMISSION_FACTORS : List (String × ℚ) :=
  [("car", 120/1000),
   ("bus", 68/1000),
   ("train", 45/1000),
   ("bicycle", 0),
   ("walking", 0)]

/-- Python's `dict.get(key, default)` on an association list. -/
def dictGet (d : List (String × ℚ)) (k : String) (dflt : ℚ) : ℚ :=
  match d.find? (fun p => p.1 == k) with
  | some p => p.2
  | none => dflt

/-- The Carbon Estimator: the expression
`distance * EMISSION_FACTORS.get(mode, 0.0)` of src/main.py line 44,
abstracted over the distance. -/
def estimate (mode : String) (distance : ℚ) : ℚ :=
  distance * dictGet EMISSION_FACTORS mode 0

/-- An inbound form submission: `request.form.get` returns the field's
string when present and `None` otherwise, hence `Option String`. -/
structure CalculationRequest where
  start : Option String
  endLoc : Option String
  mode : Option String
deriving DecidableEq, Repr

/-- The JSON object returned by the handler: either the success shape
`{start, end, mode, distance, carbon_footprint}` or the error shape
`{error: message}`. -/
inductive Response where
  | success (start endLoc mode : String) (distance : ℕ) (carbon_footprint : ℚ)
  | error (msg : String)
deriving DecidableEq, Repr

/-- Python falsiness of an optional form field: `not x` is true exactly
when the field is absent (`None`) or the empty string. -/
def falsy : Option String → Bool
  | none => true
  | some s => s.isEmpty

/-- The `/calculate` handler of src/main.py lines 30–55.  When any of
the three fields is falsy it raises `ValueError("Missing required
inputs!")`, which the surrounding `except` converts into the error
shape; otherwise it answers with the fixed distance 100 and the
estimator's value at that distance. -/
def calculate (req : CalculationRequest) : Response :=
  if falsy req.start || falsy req.endLoc || falsy req.mode then
    Response.error "Missing required inputs!"
  else
    Response.success (req.start.getD "") (req.endLoc.getD "") (req.mode.getD "")
      100 (estimate (req.mode.getD "") 100)

/-- A present, non-empty field is not falsy. -/
theorem falsy_eq_false (s : String) (hs : s ≠ "") : falsy (some s) = false := by
  simp only [falsy]
  exact Bool.eq_false_iff.mpr (fun hEmpty => hs ((String.isEmpty_iff s).mp hEmpty))

/-- Evaluating the handler on present, non-empty fields. -/
theorem calculate_of_present (s e m : String)
    (hs : s ≠ "") (he : e ≠ "") (hm : m ≠ "") :
    calculate ⟨some s, some e, some m⟩ =
      Response.success s e m 100 (estimate m 100) := by
  simp [calculate, falsy, String.isEmpty_iff, hs, he, hm]

/-- C1: for every recognized mode and every non-negative distance d, the
estimator returns exactly d times the factor stored for that mode
(car 0.120, bus 0.068, train 0.045, bicycle 0.0, walking 0.0). -/
theorem estimate_recognized_modes (d : ℚ) (hd : 0 ≤ d) :
    estimate "car" d = d * (120/1000) ∧
    estimate "bus" d = d * (68/1000) ∧
    estimate "train" d = d * (45/1000) ∧
    estimate "bicycle" d = d * 0 ∧
    estimate "walking" d = d * 0 := by
  refine ⟨?_, ?_, ?_, ?_, ?_⟩ <;>
    simp [estimate, dictGet, EMISSION_FACTORS, List.find?]

/-- Witness for C1 at d = 3. -/
theorem estimate_recognized_modes_witness :
    (0 : ℚ) ≤ 3 ∧
      (estimate "car" 3 = 3 * (120/1000) ∧
       estimate "bus" 3 = 3 * (68/1000) ∧
       estimate "train" 3 = 3 * (45/1000) ∧
       estimate "bicycle" 3 = 3 * 0 ∧
       estimate "walking" 3 = 3 * 0) :=
  ⟨by norm_num, estimate_recognized_modes 3 (by norm_num)⟩

/-- Looking up a key that is not in the table yields the default. -/
theorem dictGet_eq_dflt (k : String) (dflt : ℚ)
    (h : k ∉ ["car", "bus", "train", "bicycle", "walking"]) :
    dictGet EMISSION_FACTORS k dflt = dflt := by
  simp only [List.mem_cons, List.not_mem_nil, or_false, not_or] at h
  obtain ⟨h1, h2, h3, h4, h5⟩ := h
  have e1 : ("car" == k) = false := beq_eq_false_iff_ne.mpr (Ne.symm h1)
  have e2 : ("bus" == k) = false := beq_eq_false_iff_ne.mpr (Ne.symm h2)
  have e3 : ("train" == k) = false := beq_eq_false_iff_ne.mpr (Ne.symm h3)
  have e4 : ("bicycle" == k) = false := beq_eq_false_iff_ne.mpr (Ne.symm h4)
  have e5 : ("walking" == k) = false := beq_eq_false_iff_ne.mpr (Ne.symm h5)
  simp [dictGet, EMISSION_FACTORS, List.find?, e1, e2, e3, e4, e5]

/-- C2: when start, end and mode are all present and non-empty, the
handler returns the success shape echoing the three fields unchanged,
with distance equal to the placeholder 100 and carbon_footprint equal
to 100 times the factor looked up for the mode. -/
theorem calculate_success_shape (s e m : String)
    (hs : s ≠ "") (he : e ≠ "") (hm : m ≠ "") :
    calculate ⟨some s, some e, some m⟩ =
      Response.success s e m 100 (100 * dictGet EMISSION_FACTORS m 0) :=
  calculate_of_present s e m hs he hm

/-- Witness for C2. -/
theorem calculate_success_shape_witness :
    "Paris" ≠ "" ∧ "Lyon" ≠ "" ∧ "bus" ≠ "" ∧
      calculate ⟨some "Paris", some "Lyon", some "bus"⟩ =
        Response.success "Paris" "Lyon" "bus" 100
          (100 * dictGet EMISSION_FACTORS "bus" 0) :=
  ⟨by decide, by decide, by decide,
    calculate_success_shape "Paris" "Lyon" "bus"
      (by decide) (by decide) (by decide)⟩

/-- C3: the handler returns the error shape exactly when at least one of
start, end, mode is absent (None) or the empty string; the error result
is the error constructor, which carries only a message and none of the
success fields, and no other condition on the fields causes an error. -/
theorem calculate_error_iff (req : CalculationRequest) :
    (∃ msg, calculate req = Response.error msg) ↔
      (req.start = none ∨ req.start = some "" ∨
       req.endLoc = none ∨ req.endLoc = some "" ∨
       req.mode = none ∨ req.mode = some "") := by
  obtain ⟨os, oe, om⟩ := req
  constructor
  · rintro ⟨msg, hmsg⟩
    by_contra hnot
    simp only [not_or] at hnot
    obtain ⟨n1, n2, n3, n4, n5, n6⟩ := hnot
    have fs : falsy os = false := by
      cases os with
      | none => exact absurd rfl n1
      | some s => exact falsy_eq_false s (fun hsEq => n2 (congrArg some hsEq))
    have fe : falsy oe = false := by
      cases oe with
      | none => exact absurd rfl n3
      | some s => exact falsy_eq_false s (fun hsEq => n4 (congrArg some hsEq))
    have fm : falsy om = false := by
      cases om with
      | none => exact absurd rfl n5
      | some s => exact falsy_eq_false s (fun hsEq => n6 (congrArg some hsEq))
    simp [calculate, fs, fe, fm] at hmsg
  · intro h
    refine ⟨"Missing required inputs!", ?_⟩
    have : (falsy os || falsy oe || falsy om) = true := by
      rcases h with h | h | h | h | h | h <;> subst h <;>
        simp [falsy, String.isEmpty_iff]
    simp [calculate, this]

/-- C4: a request whose start and end are present and non-empty and
whose mode is any string outside the factor table is answered with the
success shape and carbon_footprint 0, not with an error. -/
theorem calculate_unrecognized_mode (s e m : String)
    (hs : s ≠ "") (he : e ≠ "") (hm : m ≠ "")
    (hmode : m ∉ ["car", "bus", "train", "bicycle", "walking"]) :
    calculate ⟨some s, some e, some m⟩ = Response.success s e m 100 0 := by
  rw [calculate_of_present s e m hs he hm, estimate,
    dictGet_eq_dflt m 0 hmode, mul_zero]

/-- Witness for C4 at mode "scooter". -/
theorem calculate_unrecognized_mode_witness :
    "a" ≠ "" ∧ "b" ≠ "" ∧ "scooter" ≠ "" ∧
      "scooter" ∉ ["car", "bus", "train", "bicycle", "walking"] ∧
      calculate ⟨some "a", some "b", some "scooter"⟩ =
        Response.success "a" "b" "scooter" 100 0 :=
  ⟨by decide, by decide, by decide, by decide,
    calculate_unrecognized_mode "a" "b" "scooter"
      (by decide) (by decide) (by decide) (by decide)⟩

/-- C5: with all three fields present and non-empty and mode "car", the
success response has distance 100 and carbon_footprint exactly 12
(100 times the car factor 0.120; the product is also exact in the
program's floating-point arithmetic). -/
theorem calculate_car_twelve (s e : String) (hs : s ≠ "") (he : e ≠ "") :
    calculate ⟨some s, some e, some "car"⟩ =
      Response.success s e "car" 100 12 := by
  rw [calculate_of_present s e "car" hs he (by decide)]
  norm_num [estimate, dictGet, EMISSION_FACTORS, List.find?]

/-- Witness for C5. -/
theorem calculate_car_twelve_witness :
    "a" ≠ "" ∧ "b" ≠ "" ∧
      calculate ⟨some "a", some "b", some "car"⟩ =
        Response.success "a" "b" "car" 100 12 :=
  ⟨by decide, by decide, calculate_car_twelve "a" "b" (by decide) (by decide)⟩

/-- C6: the handler is a total function into the response type: every
request is answered with either the success shape (always with distance
100) or the error shape, never an unhandled fault. -/
theorem calculate_total (req : CalculationRequest) :
    (∃ s e m c, calculate req = Response.success s e m 100 c) ∨
      (∃ msg, calculate req = Response.error msg) := by
  unfold calculate
  by_cases h : (falsy req.start || falsy req.endLoc || falsy req.mode) = true
  · right
    exact ⟨"Missing required inputs!", by simp [h]⟩
  · left
    refine ⟨req.start.getD "", req.endLoc.getD "", req.mode.getD "",
      estimate (req.mode.getD "") 100, ?_⟩
    simp [h]

/-- C7: the calculation is deterministic: two invocations of the
handler on identical inputs produce identical outputs; the result
depends on nothing but the request. -/
theorem calculate_deterministic (r1 r2 : CalculationRequest) (h : r1 = r2) :
    calculate r1 = calculate r2 := by
  rw [h]

/-- Witness for C7. -/
theorem calculate_deterministic_witness :
    (⟨some "a", some "b", some "car"⟩ : CalculationRequest) =
        ⟨some "a", some "b", some "car"⟩ ∧
      calculate ⟨some "a", some "b", some "car"⟩ =
        calculate ⟨some "a", some "b", some "car"⟩ :=
  ⟨rfl, calculate_deterministic ⟨some "a", some "b", some "car"⟩
    ⟨some "a", some "b", some "car"⟩ rfl⟩

/-- C8: the estimator at distance 0 returns 0 for every mode string,
recognized or not. -/
theorem estimate_zero_distance (m : String) : estimate m 0 = 0 := by
  simp [estimate]

/-- C9: mode lookup is case-sensitive and exact-match: "Car" and
"car " are unrecognized and yield carbon_footprint 0, while the exact
key "car" yields 100 times its factor, 12. -/
theorem calculate_mode_exact_match (s e : String)
    (hs : s ≠ "") (he : e ≠ "") :
    calculate ⟨some s, some e, some "Car"⟩ =
        Response.success s e "Car" 100 0 ∧
      calculate ⟨some s, some e, some "car "⟩ =
        Response.success s e "car " 100 0 ∧
      calculate ⟨some s, some e, some "car"⟩ =
        Response.success s e "car" 100 12 := by
  have hCar : estimate "Car" 100 = 0 := by
    rw [estimate, dictGet_eq_dflt "Car" 0 (by decide), mul_zero]
  have hcarSpace : estimate "car " 100 = 0 := by
    rw [estimate, dictGet_eq_dflt "car " 0 (by decide), mul_zero]
  refine ⟨?_, ?_, ?_⟩
  · rw [calculate_of_present s e "Car" hs he (by decide), hCar]
  · rw [calculate_of_present s e "car " hs he (by decide), hcarSpace]
  · rw [calculate_of_present s e "car" hs he (by decide)]
    norm_num [estimate, dictGet, EMISSION_FACTORS, List.find?]

/-- Witness for C9. -/
theorem calculate_mode_exact_match_witness :
    "a" ≠ "" ∧ "b" ≠ "" ∧
      (calculate ⟨some "a", some "b", some "Car"⟩ =
          Response.success "a" "b" "Car" 100 0 ∧
        calculate ⟨some "a", some "b", some "car "⟩ =
          Response.success "a" "b" "car " 100 0 ∧
        calculate ⟨some "a", some "b", some "car"⟩ =
          Response.success "a" "b" "car" 100 12) :=
  ⟨by decide, by decide,
    calculate_mode_exact_match "a" "b" (by decide) (by decide)⟩

/-- C10: every validation failure produces exactly the message
"Missing required inputs!", whichever of the fields is absent or empty
and however many of them are. -/
theorem calculate_missing_message (req : CalculationRequest)
    (h : req.start = none ∨ req.start = some "" ∨
      req.endLoc = none ∨ req.endLoc = some "" ∨
      req.mode = none ∨ req.mode = some "") :
    calculate req = Response.error "Missing required inputs!" := by
  obtain ⟨os, oe, om⟩ := req
  have : (falsy os || falsy oe || falsy om) = true := by
    rcases h with h | h | h | h | h | h <;> subst h <;>
      simp [falsy, String.isEmpty_iff]
  simp [calculate, this]

/-- Witness for C10 with start absent. -/
theorem calculate_missing_message_witness :
    ((⟨none, some "Lyon", some "car"⟩ : CalculationRequest).start = none ∨
        (⟨none, some "Lyon", some "car"⟩ : CalculationRequest).start = some "" ∨
        (⟨none, some "Lyon", some "car"⟩ : CalculationRequest).endLoc = none ∨
        (⟨none, some "Lyon", some "car"⟩ : CalculationRequest).endLoc = some "" ∨
        (⟨none, some "Lyon", some "car"⟩ : CalculationRequest).mode = none ∨
        (⟨none, some "Lyon", some "car"⟩ : CalculationRequest).mode = some "") ∧
      calculate ⟨none, some "Lyon", some "car"⟩ =
        Response.error "Missing required inputs!" :=
  ⟨Or.inl rfl, calculate_missing_message ⟨none, some "Lyon", some "car"⟩
    (Or.inl rfl)⟩

end EcoTrekker
